import Mathlib

/-!
Shallow embedding of `src/core/models.py` and `src/core/util.py` of the
firefly power-budget modelling library, together with theorems settling the
specification claims about it.

Conventions of the embedding:
* Python numbers (`int` / `float`) are modelled as `ℚ`; the numeric literals
  appearing in the repository are small decimals, all exactly representable.
* Python values flowing through the generic validation layer are modelled by
  the closed universe `PyVal`, with `pyTypeOf` playing the role of `type(..)`.
* Fallible Python code (code that can raise) returns `Except PyError _`.
* Field and function names follow the source, including its misspellings
  (for example the `vdroput` attribute set on `LinearSource`).
-/

namespace Firefly

/-- Python runtime types relevant to this repository; `typeT` is the type of
type objects themselves (so `pyTypeOf` of the builtin `int` is `typeT`). -/
inductive PyType where
  | noneT
  | intT
  | floatT
  | strT
  | listT
  | dictT
  | typeT
  | statParamT
  | effModelT
  deriving DecidableEq

/-- Exception kinds raised by the embedded code. -/
inductive PyError where
  | typeError
  | valueError
  | attributeError
  | nameError
  | zeroDivisionError
  deriving DecidableEq

/-- State of a constructed `StatParam` (models.py lines 7-33): the seven
attributes set by `__init__`, with optional ones as `Option`. -/
structure StatParam where
  name : String
  units : String
  nom_value : ℚ
  param_type : Option String
  param_dist : Option String
  low_val : Option ℚ
  high_val : Option ℚ
  deriving DecidableEq

/-- Universe of Python values passed through `validate_arg`.  Lists occurring
in the embedded call sites hold numbers only, so `vlist` carries `List ℚ`;
`vdict` is opaque because no embedded code inspects a dict's contents
(`tags` is only stored); `vtype` models a type object used as a value, which
is how the builtin `int` is (mistakenly) passed around in the source. -/
inductive PyVal where
  | none
  | vint (n : ℤ)
  | vfloat (q : ℚ)
  | vstr (s : String)
  | vlist (xs : List ℚ)
  | vdict
  | vstatParam (p : StatParam)
  | vtype (t : PyType)
  deriving DecidableEq

/-- The Python `type` function restricted to the universe above. -/
def pyTypeOf : PyVal → PyType
  | PyVal.none => PyType.noneT
  | PyVal.vint _ => PyType.intT
  | PyVal.vfloat _ => PyType.floatT
  | PyVal.vstr _ => PyType.strT
  | PyVal.vlist _ => PyType.listT
  | PyVal.vdict => PyType.dictT
  | PyVal.vstatParam _ => PyType.statParamT
  | PyVal.vtype _ => PyType.typeT

/-- Projection used after a `[int, float]` validation succeeded. -/
def asQ : PyVal → ℚ
  | PyVal.vint n => (n : ℚ)
  | PyVal.vfloat q => q
  | _ => 0

/-- Projection used after a `str` validation succeeded. -/
def asStr : PyVal → String
  | PyVal.vstr s => s
  | _ => ""

/-- Projection used after an `int` validation succeeded. -/
def asInt : PyVal → ℤ
  | PyVal.vint n => n
  | _ => 0

/-- Projection for an optional numeric attribute (`None` stays `None`). -/
def asOptQ : PyVal → Option ℚ
  | PyVal.vint n => Option.some ((n : ℚ))
  | PyVal.vfloat q => Option.some q
  | _ => Option.none

/-- Projection for an optional string attribute (`None` stays `None`). -/
def asOptStr : PyVal → Option String
  | PyVal.vstr s => Option.some s
  | _ => Option.none

/-- Projection for an optional integer attribute (`None` stays `None`). -/
def asOptInt : PyVal → Option ℤ
  | PyVal.vint n => Option.some n
  | _ => Option.none

/-- Projection used after a `StatParam` validation succeeded. -/
def asStatParam : PyVal → StatParam
  | PyVal.vstatParam p => p
  | _ => ⟨"", "", 0, Option.none, Option.none, Option.none, Option.none⟩

/-- ASCII lower-casing of one character, the executable model of what
Python's `str.lower` does on the plain-ASCII strings this repository uses. -/
def charLower (c : Char) : Char :=
  if 65 ≤ c.toNat ∧ c.toNat ≤ 90 then Char.ofNat (c.toNat + 32) else c

/-- ASCII lower-casing of a string (model of Python's `str.lower`). -/
def strLower (s : String) : String := ⟨s.data.map charLower⟩

/-- Embedding of `validate_string` (util.py lines 31-56).  The call sites in
the embedded code always pass a list of strings, so `values` is a list here
(the source first casts a bare string to a singleton list).  With
`strict = False` the comparison is made on lowercased strings; a value not in
the list raises `ValueError`. -/
def validate_string (arg : String) (values : List String) (strict : Bool) : Except PyError Unit :=
  let values := if strict = false then values.map (fun s => strLower s) else values
  let arg := if strict = false then strLower arg else arg
  if arg ∈ values then Except.ok () else Except.error PyError.valueError

/-- Embedding of `validate_arg` (util.py lines 78-122).
Control flow of the source, in order: if `optional` and the argument is
`None`, return `None` when no default is given, otherwise substitute the
default; then check `type(arg)` against `expected_type` (raising
`TypeError`); then, when `valid_values` is supplied, a string argument is
checked by `validate_string`.  The source's `elif type(arg) is int or float`
branch calls `validate_number(arg, valid_values)`; every embedded call site
passes `valid_values` as a list of strings, so for a non-string argument that
comparison against strings would raise `TypeError`, which is how the branch
is rendered here. -/
def validate_arg (arg : PyVal) (expected_type : List PyType)
    (valid_values : Option (List String)) (optional : Bool) (default : Option PyVal)
    (strict : Bool) : Except PyError PyVal :=
  if optional = true ∧ arg = PyVal.none ∧ default = Option.none then
    Except.ok PyVal.none
  else
    let arg := if optional = true ∧ arg = PyVal.none then default.getD arg else arg
    if pyTypeOf arg ∈ expected_type then
      match valid_values with
      | Option.none => Except.ok arg
      | Option.some vs =>
        match arg with
        | PyVal.vstr s =>
          match validate_string s vs strict with
          | Except.ok _ => Except.ok (PyVal.vstr s)
          | Except.error e => Except.error e
        | _ => Except.error PyError.typeError
    else
      Except.error PyError.typeError

/-- Boolean test for a non-raising `Except` computation. -/
def exceptIsOk {α : Type} : Except PyError α → Bool
  | Except.ok _ => true
  | Except.error _ => false

/-- Embedding of `StatParam.__init__` (models.py lines 11-33): the seven
`validate_arg` calls in source order, each short-circuiting on an exception,
then the assembled attribute record.  Note that the source validates
`param_dist`, `low_val` and `high_val` independently of one another: nothing
requires the bounds to be present when a distribution is set. -/
def StatParam.init (name units nom_value param_type param_dist low_val high_val : PyVal) :
    Except PyError StatParam :=
  (validate_arg name [PyType.strT] Option.none false Option.none false).bind (fun nameV =>
  (validate_arg units [PyType.strT] Option.none false Option.none false).bind (fun unitsV =>
  (validate_arg nom_value [PyType.intT, PyType.floatT] Option.none false Option.none false).bind (fun nomV =>
  (validate_arg param_type [PyType.strT] (Option.some [("value"), ("percent")]) true Option.none false).bind (fun ptV =>
  (validate_arg param_dist [PyType.strT] (Option.some [("uniform"), ("normal")]) true Option.none false).bind (fun pdV =>
  (validate_arg low_val [PyType.intT, PyType.floatT] Option.none true Option.none false).bind (fun lvV =>
  (validate_arg high_val [PyType.intT, PyType.floatT] Option.none true Option.none false).bind (fun hvV =>
  Except.ok ⟨asStr nameV, asStr unitsV, asQ nomV, asOptStr ptV, asOptStr pdV, asOptQ lvV, asOptQ hvV⟩)))))))

/-- Method names actually bound in the class body of `StatParam`.  In the
source, the `def __repr__` (line 35) and `def get_value` (line 38) statements
are indented inside the body of `__init__`, so they define local functions of
the constructor and are never bound as attributes of the class; only
`__init__` itself is. -/
def StatParam.classMethods : List String := [("__init__")]

/-- Attribute lookup for methods on a `StatParam` instance: succeeds exactly
for the names in `StatParam.classMethods`; any other lookup raises
`AttributeError` in Python. -/
def StatParam.hasMethod (m : String) : Bool := StatParam.classMethods.contains m

/-- Embedding of the body of `get_value` (models.py lines 38-49), the
function nested inside `StatParam.__init__`: regardless of the requested
mode it returns the stored nominal value (source comment: "just always
return nominal value for now"). -/
def StatParam.get_value (p : StatParam) (mode : String) : ℚ := p.nom_value

/-- State of a constructed `BaseModel` (models.py lines 55-72): attributes
set by `BaseModel.__init__` in source order.  `tags` is stored unexamined,
so it stays a `PyVal`. -/
structure BaseModelState where
  id : ℤ
  name : String
  sub_system_id : Option ℤ
  tags : PyVal
  mode : String
  deriving DecidableEq

/-- Embedding of `BaseModel.__init__` (models.py lines 55-72): validation of
`id`, `name`, `sub_system_id`, `tags` and `mode` in source order, then the
assembled state. -/
def BaseModel.init (id name tags sub_system_id mode : PyVal) : Except PyError BaseModelState :=
  (validate_arg id [PyType.intT] Option.none false Option.none false).bind (fun idV =>
  (validate_arg name [PyType.strT] Option.none false Option.none false).bind (fun nameV =>
  (validate_arg sub_system_id [PyType.intT] Option.none true Option.none false).bind (fun ssV =>
  (validate_arg tags [PyType.dictT] Option.none true Option.none false).bind (fun tagsV =>
  (validate_arg mode [PyType.strT] (Option.some [("nom"), ("mc")]) false Option.none false).bind (fun modeV =>
  Except.ok ⟨asInt idV, asStr nameV, asOptInt ssV, tagsV, asStr modeV⟩)))))

/-- The `StatParam('input_resistance', 'Ohm', 0)` default constructed at
models.py lines 93, 145 and 185. -/
def default_input : StatParam :=
  ⟨"input_resistance", "Ohm", 0, Option.none, Option.none, Option.none, Option.none⟩

/-- The `StatParam('output_resistance', 'Ohm', 0)` default constructed at
models.py lines 146 and 186. -/
def default_output : StatParam :=
  ⟨"output_resistance", "Ohm", 0, Option.none, Option.none, Option.none, Option.none⟩

/-- A node of the component tree fed from a source: either a load
(`BaseLoad` and its variants, models.py lines 74-126, all sharing the base
attributes) or a `LoadSwitch` (models.py lines 128-158) whose `child_loads`
dict is modelled as an insertion-ordered association list from id to
component, exactly the structure a Python dict presents here. -/
inductive Component where
  | load (id : ℤ) (name : String) (load_value : StatParam) (input_resistance : StatParam)
  | switch (id : ℤ) (name : String) (switch_resistance : StatParam)
      (input_resistance : StatParam) (output_resistance : StatParam)
      (child_loads : List (ℤ × Component))

/-- The `id` attribute of a component (set by `BaseModel.__init__`). -/
def Component.cid : Component → ℤ
  | Component.load i _ _ _ => i
  | Component.switch i _ _ _ _ _ => i

/-- The `child_loads` dict of a component: the stored association list for a
`LoadSwitch`, empty for a plain load (which has no such attribute). -/
def Component.children : Component → List (ℤ × Component)
  | Component.load _ _ _ _ => []
  | Component.switch _ _ _ _ _ cl => cl

/-- Python dict assignment `d[k] = v` on the association-list model: replace
the value in place when the key is present (preserving its position), append
a new entry otherwise. -/
def dictInsert (d : List (ℤ × Component)) (k : ℤ) (v : Component) : List (ℤ × Component) :=
  match d with
  | [] => [(k, v)]
  | (k0, v0) :: rest => if k0 = k then (k, v) :: rest else (k0, v0) :: dictInsert rest k v

/-- Python dict lookup `d[k]` on the association-list model. -/
def dictLookup (d : List (ℤ × Component)) (k : ℤ) : Option Component :=
  match d with
  | [] => Option.none
  | (k0, v0) :: rest => if k0 = k then Option.some v0 else dictLookup rest k

/-- The `child_loads` keys-equal-ids property claimed as an invariant by the
specification: every key of the dict equals the `id` of the component stored
under it. -/
def keysMatchIds (d : List (ℤ × Component)) : Bool :=
  d.all (fun kv => kv.1 == (kv.2).cid)

/-- Embedding of `LoadSwitch.__init__` (models.py lines 132-147) on
well-typed arguments: the `validate_arg` calls are identities there, the
optional resistances default to the zero-Ohm `StatParam`s of lines 145-146,
and `child_loads` defaults to the empty dict (line 147).  The initial dict is
stored as passed: its keys are not checked against the ids of its values. -/
def LoadSwitch.init (id : ℤ) (name : String) (switch_resistance : StatParam)
    (input_resistance : Option StatParam) (output_resistance : Option StatParam)
    (child_loads : Option (List (ℤ × Component))) : Component :=
  Component.switch id name switch_resistance
    (input_resistance.getD default_input) (output_resistance.getD default_output)
    (child_loads.getD [])

/-- Embedding of `LoadSwitch.add_load` (models.py lines 149-158): the single
statement `self.child_loads[load_obj.id] = load_obj`, with no ancestry check
and no error path.  On a plain load (which has no `add_load` method) the
component is returned unchanged; the theorems only apply this to switches. -/
def Component.add_load : Component → Component → Component
  | Component.switch i n sr ir orr cl, load_obj =>
      Component.switch i n sr ir orr (dictInsert cl load_obj.cid load_obj)
  | c, _ => c

/-- State of a constructed `BaseSource` (models.py lines 160-194): the base
attributes, the validated voltage/current parameters, the resistance
defaults, and the three derived attributes initialised on lines 192-194
(`loads = list()`, `total_current = float()`, `power_dissipation = float()`,
where `float()` is `0.0`). -/
structure BaseSourceState where
  base : BaseModelState
  vin : StatParam
  vout : StatParam
  max_current : StatParam
  input_resistance : StatParam
  output_resistance : StatParam
  loads : List Component
  total_current : ℚ
  power_dissipation : ℚ

/-- Embedding of `BaseSource.__init__` (models.py lines 164-194): the
`super().__init__` call, the three required `StatParam` validations, the two
optional resistances with their zero-Ohm defaults (lines 185-189), and the
derived attributes of lines 192-194. -/
def BaseSource.init (id name vin vout max_current input_resistance output_resistance
    tags sub_system_id mode : PyVal) : Except PyError BaseSourceState :=
  (BaseModel.init id name tags sub_system_id mode).bind (fun baseV =>
  (validate_arg vin [PyType.statParamT] Option.none false Option.none false).bind (fun vinV =>
  (validate_arg vout [PyType.statParamT] Option.none false Option.none false).bind (fun voutV =>
  (validate_arg max_current [PyType.statParamT] Option.none false Option.none false).bind (fun mcV =>
  (validate_arg input_resistance [PyType.statParamT] Option.none true
      (Option.some (PyVal.vstatParam default_input)) false).bind (fun irV =>
  (validate_arg output_resistance [PyType.statParamT] Option.none true
      (Option.some (PyVal.vstatParam default_output)) false).bind (fun orV =>
  Except.ok ⟨baseV, asStatParam vinV, asStatParam voutV, asStatParam mcV,
    asStatParam irV, asStatParam orV, [], 0, 0⟩))))))

/-- State of a constructed `EfficiencyModel` (models.py lines 210-226).  The
`efficiency` attribute keeps its dynamic type (`float` or `list`), since
`get_eff` dispatches on `type(self.efficiency) is float`. -/
structure EfficiencyModelState where
  efficiency : PyVal
  current : Option (List ℚ)
  deriving DecidableEq

/-- Projection for the optional current list of an `EfficiencyModel`. -/
def asOptList : PyVal → Option (List ℚ)
  | PyVal.vlist xs => Option.some xs
  | _ => Option.none

/-- Embedding of `EfficiencyModel.__init__` (models.py lines 214-226). -/
def EfficiencyModel.init (efficiency current : PyVal) : Except PyError EfficiencyModelState :=
  (validate_arg efficiency [PyType.floatT, PyType.listT] Option.none false Option.none false).bind
    (fun effV =>
  (validate_arg current [PyType.listT] Option.none true Option.none false).bind (fun curV =>
  Except.ok ⟨effV, asOptList curV⟩))

/-- Embedding of `EfficiencyModel.get_eff` (models.py lines 228-244).  When
`efficiency` was given as a single float, it is returned and `current` is
ignored.  Otherwise the source validates `current` as numeric and then
executes `return eff` (line 244) — but no interpolation was ever written
(the TODO on line 243) and the local name `eff` is unbound, so the call
raises `NameError`. -/
def EfficiencyModelState.get_eff (m : EfficiencyModelState) (current : PyVal) : Except PyError ℚ :=
  match m.efficiency with
  | PyVal.vfloat e => Except.ok e
  | _ =>
    match validate_arg current [PyType.floatT, PyType.intT] Option.none false Option.none false with
    | Except.ok _ => Except.error PyError.nameError
    | Except.error e => Except.error e

/-- Effective construction of a `CapDividerSource` (models.py lines
269-293).  The `def __init__` on line 273 starts at column 0, so it is a
module-level function rather than a method: the class body contains only a
docstring and the class inherits `BaseSource.__init__`.  A call
`CapDividerSource(id, name, vin, divider, max_current)` therefore binds the
integer `divider` to the `vout` parameter of `BaseSource.__init__`, with the
remaining optional arguments at their defaults. -/
def CapDividerSource.construct (id name vin : PyVal) (divider : ℤ) (max_current : PyVal) :
    Except PyError BaseSourceState :=
  BaseSource.init id name vin (PyVal.vint divider) max_current
    PyVal.none PyVal.none PyVal.none PyVal.none (PyVal.vstr ("nom"))

/-- The `StatParam('Vdroput', 'V', 0)` default of models.py line 316. -/
def vdroputDefault : StatParam :=
  ⟨"Vdroput", "V", 0, Option.none, Option.none, Option.none, Option.none⟩

/-- The `StatParam('iq', 'uA', 0)` default of models.py line 317. -/
def iqDefault : StatParam :=
  ⟨"iq", "uA", 0, Option.none, Option.none, Option.none, Option.none⟩

/-- State of a constructed `LinearSource` (models.py lines 295-318): the
`BaseSource` state plus the dropout voltage (stored under the misspelled
attribute name `vdroput`, line 316) and the quiescent current `iq`. -/
structure LinearSourceState where
  src : BaseSourceState
  vdroput : StatParam
  iq : StatParam

/-- Embedding of `LinearSource.__init__` (models.py lines 299-318).  Line
315 reads `super().__init__(int, name, vin, ...)`: the builtin type `int` is
passed where the `id` argument belongs (the `id` parameter itself is never
forwarded), so the inherited validation receives a type object as `id`. -/
def LinearSource.init (id name vin vout max_current input_resistance output_resistance
    tags sub_system_id vdropout iq : PyVal) : Except PyError LinearSourceState :=
  (BaseSource.init (PyVal.vtype PyType.intT) name vin vout max_current input_resistance
      output_resistance tags sub_system_id (PyVal.vstr ("nom"))).bind (fun srcV =>
  (validate_arg vdropout [PyType.statParamT] Option.none true
      (Option.some (PyVal.vstatParam vdroputDefault)) false).bind (fun vdV =>
  (validate_arg iq [PyType.statParamT] Option.none true
      (Option.some (PyVal.vstatParam iqDefault)) false).bind (fun iqV =>
  Except.ok ⟨srcV, asStatParam vdV, asStatParam iqV⟩)))

/-- The method call `p.get_value(mode)` on a `StatParam` instance as Python
executes it: the attribute lookup succeeds only for names bound on the class
(`StatParam.classMethods`), and `get_value` is not among them (its `def` is
nested inside `__init__`, models.py line 38), so the call raises
`AttributeError`; were the name bound, the nested body would return the
stored nominal value. -/
def StatParam.call_get_value (p : StatParam) (mode : String) : Except PyError ℚ :=
  if StatParam.hasMethod ("get_value") = true then
    Except.ok (StatParam.get_value p mode)
  else
    Except.error PyError.attributeError

/-- Embedding of `LinearSource.calc_efficiency` (models.py lines 320-338):
when `current` is `None` the stored `total_current` is used (lines 331-332);
then `self.vin.get_value(self.mode)` and `self.iq.get_value(self.mode)`
(lines 334-335) are method calls on `StatParam` instances, each of which
raises `AttributeError` because `get_value` is never bound on the class (see
`StatParam.call_get_value`); only if both lookups succeeded would line 336
compute `(vin * current) / (vin * (current + iq))`, with Python float
division raising `ZeroDivisionError` whenever the denominator is `0.0`. -/
def LinearSourceState.calc_efficiency (s : LinearSourceState) (current : Option ℚ) :
    Except PyError ℚ :=
  let current :=
    match current with
    | Option.none => s.src.total_current
    | Option.some c => c
  (StatParam.call_get_value s.src.vin s.src.base.mode).bind (fun vin =>
  (StatParam.call_get_value s.iq s.src.base.mode).bind (fun iq =>
  if vin * (current + iq) = 0 then
    Except.error PyError.zeroDivisionError
  else
    Except.ok ((vin * current) / (vin * (current + iq)))))

/-! ## Concrete fixtures used by the theorems -/

/-- The `StatParam('load_current', 'A', 0.15)` of the script at models.py
line 343 (`0.15 = 3/20`). -/
def load_param : StatParam :=
  ⟨"load_current", "A", 3/20, Option.none, Option.none, Option.none, Option.none⟩

/-- A load with id 1, as built at models.py line 345. -/
def loadOne : Component := Component.load 1 ("Load1") load_param default_input

/-- A second load with id 2, as built at models.py line 346. -/
def loadTwo : Component := Component.load 2 ("ResitiveLoad1") load_param default_input

/-- The `StatParam('SwitchResistance', 'Ohm', 0.05)` of models.py line 348. -/
def switch_resistance : StatParam :=
  ⟨"SwitchResistance", "Ohm", 1/20, Option.none, Option.none, Option.none, Option.none⟩

/-- A 3.3 V input-voltage parameter. -/
def vinP33 : StatParam := ⟨"vin", "V", 33/10, Option.none, Option.none, Option.none, Option.none⟩

/-- A 1.8 V output-voltage parameter. -/
def voutP18 : StatParam := ⟨"vout", "V", 9/5, Option.none, Option.none, Option.none, Option.none⟩

/-- A 10 V input-voltage parameter (the cap-divider end-to-end scenario). -/
def vin10 : StatParam := ⟨"vin", "V", 10, Option.none, Option.none, Option.none, Option.none⟩

/-- A 1 A maximum-current parameter. -/
def imax1 : StatParam := ⟨"imax", "A", 1, Option.none, Option.none, Option.none, Option.none⟩

/-- A bounded uniform parameter whose nominal value 5.0 lies outside its own
bounds [1.0, 2.0]; every argument passes `StatParam.__init__` validation. -/
def mcParam : StatParam :=
  ⟨"p", "V", 5, Option.some ("value"), Option.some ("uniform"), Option.some 1, Option.some 2⟩

/-- An `EfficiencyModel` in list form: efficiencies 0.8 and 0.9 at currents
0.1 A and 1.0 A. -/
def tableEff : EfficiencyModelState := ⟨PyVal.vlist [4/5, 9/10], Option.some [1/10, 1]⟩

/-- An `EfficiencyModel` in scalar form with constant efficiency 0.9. -/
def scalarEff : EfficiencyModelState := ⟨PyVal.vfloat (9/10), Option.none⟩

/-- An empty `LoadSwitch` with id 1. -/
def switchA : Component :=
  LoadSwitch.init 1 ("A") switch_resistance Option.none Option.none Option.none

/-- An empty `LoadSwitch` with id 2. -/
def switchB : Component :=
  LoadSwitch.init 2 ("B") switch_resistance Option.none Option.none Option.none

/-- `switchA` after `add_load(switchB)`: switch B is now a descendant of
switch A. -/
def switchA' : Component := Component.add_load switchA switchB

/-- The descendant `switchB` after `add_load` of its own ancestor
`switchA'`: in Python this call mutates B's `child_loads` and closes a
cycle; no error is raised. -/
def switchB' : Component := Component.add_load switchB switchA'

/-! ## Theorems settling the claims -/

/-- C1: the claim says `get_value` in nominal mode returns the stored
nominal value, idempotently.  The body written at models.py lines 38-49 does
exactly that (it returns `nom_value` for every mode), but the `def` is
indented inside `__init__`, so `get_value` is a local function of the
constructor and is never bound as a class attribute: on an actual
`StatParam` instance, `get_value` is missing and the call raises
`AttributeError`.  The theorem records both halves: the name is not among
the methods bound on the class, and the nested function's body returns the
stored nominal value. -/
theorem statParam_get_value_not_a_method :
    StatParam.hasMethod ("get_value") = false
    ∧ StatParam.get_value load_param ("nom") = 3/20 := by
  exact ⟨rfl, rfl⟩

/-- C2: the claim describes `calc_efficiency` returning
`(vin * c) / (vin * (c + iq))`.  The formula on models.py line 336 matches,
but no `LinearSource` can ever be constructed: line 315 passes the builtin
type `int` instead of the `id` argument to `super().__init__`, and the
inherited validation rejects a type object where an `int` value is expected,
raising `TypeError`.  The theorem evaluates the embedded constructor at the
failing input. -/
theorem linearSource_construction_type_error :
    LinearSource.init (PyVal.vint 1) (PyVal.vstr ("LDO")) (PyVal.vstatParam vinP33)
      (PyVal.vstatParam voutP18) (PyVal.vstatParam imax1) PyVal.none PyVal.none
      PyVal.none PyVal.none PyVal.none PyVal.none = Except.error PyError.typeError := by
  rfl

/-- C3: the claim describes scalar pass-through, exact interpolation at
sample points, linear interpolation between them and flat clamping outside
the range.  The scalar form does return the constant while ignoring the
current, but the list form was never implemented: models.py line 244 returns
the unbound local name `eff` (the interpolation is a TODO on line 243), so a
list-form query raises `NameError` — at a mid-range current, at an exact
sample point, and outside the range alike. -/
theorem get_eff_list_mode_name_error :
    EfficiencyModel.init (PyVal.vlist [4/5, 9/10]) (PyVal.vlist [1/10, 1]) = Except.ok tableEff
    ∧ EfficiencyModelState.get_eff tableEff (PyVal.vfloat (1/2)) = Except.error PyError.nameError
    ∧ EfficiencyModelState.get_eff tableEff (PyVal.vfloat (1/10)) = Except.error PyError.nameError
    ∧ EfficiencyModel.init (PyVal.vfloat (9/10)) PyVal.none = Except.ok scalarEff
    ∧ EfficiencyModelState.get_eff scalarEff (PyVal.vfloat 2) = Except.ok (9/10) := by
  exact ⟨rfl, rfl, rfl, rfl, rfl⟩

/-- C4: the claim says `CapDividerSource(vin, divider)` constructs with
`vout.nominal = vin.nominal / divider`.  But the `def __init__` at models.py
line 273 starts at column 0 and is therefore a module-level function, not a
method: the class inherits `BaseSource.__init__`, the integer divider is
bound to its `vout` parameter, and `validate_arg(divider, StatParam)` raises
`TypeError`.  The theorem evaluates the effective constructor at the claim's
own end-to-end input (`vin.nominal = 10.0`, `divider = 2`). -/
theorem capDividerSource_construction_type_error :
    CapDividerSource.construct (PyVal.vint 10) (PyVal.vstr ("CapDiv")) (PyVal.vstatParam vin10)
      2 (PyVal.vstatParam imax1) = Except.error PyError.typeError := by
  rfl

/-- C5: the claim says every `monte_carlo` draw lies within the resolved
bounds.  No sampling exists: the body of `get_value` returns the nominal
value for every mode ("just always return nominal value for now", models.py
line 48).  `mcParam` passes construction validation with a uniform
distribution and bounds [1, 2], yet its mc-mode value is its nominal 5,
outside the bounds.  (The method is additionally never bound on the class;
see the C1 theorem.) -/
theorem monte_carlo_value_escapes_bounds :
    StatParam.init (PyVal.vstr ("p")) (PyVal.vstr ("V")) (PyVal.vfloat 5) (PyVal.vstr ("value"))
      (PyVal.vstr ("uniform")) (PyVal.vfloat 1) (PyVal.vfloat 2) = Except.ok mcParam
    ∧ StatParam.get_value mcParam ("mc") = 5
    ∧ ¬(1 ≤ StatParam.get_value mcParam ("mc") ∧ StatParam.get_value mcParam ("mc") ≤ 2) := by
  refine ⟨rfl, rfl, ?_⟩
  decide

/-- C6: the claim says adding an ancestor as a child fails with `CycleError`
and leaves `child_loads` unmodified.  `add_load` (models.py lines 149-158)
is a single unconditional dict assignment: no ancestry check exists and no
`CycleError` is defined anywhere in the repository.  Adding ancestor switch
A (which already contains switch B) into switch B raises nothing and does
modify B's `child_loads`: the key 1 was absent before and maps to the
ancestor afterwards. -/
theorem add_load_inserts_ancestor_without_error :
    dictLookup (Component.children switchB) 1 = Option.none
    ∧ dictLookup (Component.children switchB') 1 = Option.some switchA' := by
  exact ⟨rfl, rfl⟩

/-- Lookup after a Python dict assignment at the assigned key returns the
assigned value. -/
theorem dictLookup_insert_self (d : List (ℤ × Component)) (k : ℤ) (v : Component) :
    dictLookup (dictInsert d k v) k = Option.some v := by
  induction d with
  | nil => simp [dictInsert, dictLookup]
  | cons hd tl ih =>
    obtain ⟨k0, v0⟩ := hd
    by_cases hk : k0 = k
    · simp [dictInsert, hk, dictLookup]
    · simp [dictInsert, hk, dictLookup, ih]

/-- Lookup after a Python dict assignment at any other key is unchanged. -/
theorem dictLookup_insert_ne (d : List (ℤ × Component)) (k k' : ℤ) (v : Component)
    (h : k' ≠ k) : dictLookup (dictInsert d k v) k' = dictLookup d k' := by
  induction d with
  | nil => simp only [dictInsert, dictLookup, if_neg (Ne.symm h)]
  | cons hd tl ih =>
    obtain ⟨k0, v0⟩ := hd
    by_cases hk : k0 = k
    · subst hk
      simp only [dictInsert, if_pos rfl, dictLookup, if_neg (Ne.symm h)]
    · by_cases hk' : k0 = k'
      · simp only [dictInsert, if_neg hk, dictLookup, if_pos hk']
      · simp only [dictInsert, if_neg hk, dictLookup, if_neg hk', ih]

/-- Assigning a component under its own id preserves the keys-equal-ids
property. -/
theorem keysMatchIds_insert (d : List (ℤ × Component)) (v : Component) :
    keysMatchIds d = true → keysMatchIds (dictInsert d (Component.cid v) v) = true := by
  induction d with
  | nil =>
    intro h
    simp [dictInsert, keysMatchIds]
  | cons hd tl ih =>
    obtain ⟨k0, v0⟩ := hd
    intro h
    simp only [keysMatchIds, List.all_cons, Bool.and_eq_true, beq_iff_eq] at h
    by_cases hk : k0 = Component.cid v
    · simp only [dictInsert, if_pos hk, keysMatchIds, List.all_cons, Bool.and_eq_true,
        beq_iff_eq]
      exact ⟨by trivial, h.2⟩
    · simp only [dictInsert, if_neg hk, keysMatchIds, List.all_cons, Bool.and_eq_true,
        beq_iff_eq]
      exact ⟨h.1, ih h.2⟩

/-- C7 counterexample: the claim asserts the keys-equal-ids invariant holds
already after construction, but `LoadSwitch.__init__` (models.py line 147)
stores any initial `child_loads` dict without checking its keys: a switch
constructed with the component of id 1 stored under key 99 violates the
invariant immediately. -/
theorem child_loads_key_mismatch_after_construction :
    keysMatchIds (Component.children
      (LoadSwitch.init 3 ("LoadSwitch1") switch_resistance Option.none Option.none
        (Option.some [(99, loadOne)]))) = false := by
  rfl

/-- C7 (amended): after construction from an initial `child_loads` dict
whose keys already equal the ids of their values (in particular from the
default empty dict), the keys-equal-ids invariant holds, and it is preserved
by every `add_load` call; `add_load` with a component whose id is already a
key overwrites that entry without error (last-write-wins), stores the
component under its id, and leaves every other key's binding unchanged.  The
constructor itself performs no key validation (see the counterexample). -/
theorem add_load_preserves_key_id_invariant (i : ℤ) (n : String) (sr : StatParam)
    (d : List (ℤ × Component)) (obj : Component) (h : keysMatchIds d = true) :
    keysMatchIds (Component.children
        (LoadSwitch.init i n sr Option.none Option.none (Option.some d))) = true
    ∧ keysMatchIds (Component.children (Component.add_load
        (LoadSwitch.init i n sr Option.none Option.none (Option.some d)) obj)) = true
    ∧ dictLookup (Component.children (Component.add_load
        (LoadSwitch.init i n sr Option.none Option.none (Option.some d)) obj))
        (Component.cid obj) = Option.some obj
    ∧ ∀ k, k ≠ Component.cid obj →
        dictLookup (Component.children (Component.add_load
          (LoadSwitch.init i n sr Option.none Option.none (Option.some d)) obj)) k
          = dictLookup d k := by
  exact ⟨h, keysMatchIds_insert d obj h, dictLookup_insert_self d (Component.cid obj) obj,
    fun k hk => dictLookup_insert_ne d (Component.cid obj) k obj hk⟩

/-- C7 witness: the amended statement applied to a switch built from the
well-keyed dict mapping 1 to the load of id 1, adding the load of id 2. -/
theorem add_load_preserves_key_id_invariant_witness :
    keysMatchIds [((1 : ℤ), loadOne)] = true
    ∧ dictLookup (Component.children (Component.add_load
        (LoadSwitch.init 3 ("LoadSwitch1") switch_resistance Option.none Option.none
          (Option.some [(1, loadOne)])) loadTwo)) (Component.cid loadTwo)
        = Option.some loadTwo := by
  refine ⟨by rfl, ?_⟩
  exact (add_load_preserves_key_id_invariant 3 ("LoadSwitch1") switch_resistance
    [(1, loadOne)] loadTwo (by rfl)).2.2.1

/-- A non-numeric value is rejected by the `[int, float]` type check of
`validate_arg` with `TypeError`. -/
theorem validate_arg_rejects_non_numeric (v : PyVal) (h1 : pyTypeOf v ≠ PyType.intT)
    (h2 : pyTypeOf v ≠ PyType.floatT) :
    validate_arg v [PyType.intT, PyType.floatT] Option.none false Option.none false
      = Except.error PyError.typeError := by
  unfold validate_arg
  simp [h1, h2]

/-- C8 counterexample: the claim asserts construction fails whenever
`param_dist` is set while a bound is missing, but `StatParam.__init__`
validates `param_dist`, `low_val` and `high_val` independently, each
optional: a `StatParam` with a uniform distribution and no bounds constructs
successfully. -/
theorem statParam_dist_without_bounds_accepted :
    StatParam.init (PyVal.vstr ("x")) (PyVal.vstr ("V")) (PyVal.vfloat 1) PyVal.none
      (PyVal.vstr ("uniform")) PyVal.none PyVal.none
      = Except.ok ⟨"x", "V", 1, Option.none, Option.some ("uniform"), Option.none,
          Option.none⟩ := by
  rfl

/-- C8 (amended): constructing a `StatParam` fails (with the `TypeError`
raised by the `validate_arg` boundary, the validation failure of the spec's
error taxonomy) whenever `nom_value` is not numeric, and no `StatParam`
object is produced; setting `param_dist` without bounds is, however,
accepted: no bounds-presence check exists, and such a construction
succeeds. -/
theorem statParam_init_validation
    (name units nom_value param_type param_dist low_val high_val : PyVal)
    (h1 : pyTypeOf nom_value ≠ PyType.intT) (h2 : pyTypeOf nom_value ≠ PyType.floatT) :
    exceptIsOk (StatParam.init name units nom_value param_type param_dist low_val high_val)
      = false
    ∧ ∀ (nm un : String) (q : ℚ),
        exceptIsOk (StatParam.init (PyVal.vstr nm) (PyVal.vstr un) (PyVal.vfloat q) PyVal.none
          (PyVal.vstr ("uniform")) PyVal.none PyVal.none) = true := by
  constructor
  · cases hn : validate_arg name [PyType.strT] Option.none false Option.none false with
    | error e => simp [StatParam.init, hn, Except.bind, exceptIsOk]
    | ok a =>
      cases hu : validate_arg units [PyType.strT] Option.none false Option.none false with
      | error e => simp [StatParam.init, hn, hu, Except.bind, exceptIsOk]
      | ok b =>
        simp [StatParam.init, hn, hu, validate_arg_rejects_non_numeric nom_value h1 h2,
          Except.bind, exceptIsOk]
  · intro nm un q
    rfl

/-- C8 witness: the amended statement applied at a string-valued
`nom_value`. -/
theorem statParam_init_validation_witness :
    pyTypeOf (PyVal.vstr ("oops")) ≠ PyType.intT
    ∧ pyTypeOf (PyVal.vstr ("oops")) ≠ PyType.floatT
    ∧ exceptIsOk (StatParam.init (PyVal.vstr ("x")) (PyVal.vstr ("V")) (PyVal.vstr ("oops"))
        PyVal.none PyVal.none PyVal.none PyVal.none) = false := by
  refine ⟨by decide, by decide, ?_⟩
  exact (statParam_init_validation (PyVal.vstr ("x")) (PyVal.vstr ("V")) (PyVal.vstr ("oops"))
    PyVal.none PyVal.none PyVal.none PyVal.none (by decide) (by decide)).1

/-- A `LinearSource` state with a 0 V input parameter: every field is a
value the (intended) constructor could store, with `iq` at its zero
default. -/
def zeroVinLDO : LinearSourceState :=
  ⟨⟨⟨7, "LDO0", Option.none, PyVal.none, "nom"⟩,
    ⟨"vin", "V", 0, Option.none, Option.none, Option.none, Option.none⟩,
    voutP18, imax1, default_input, default_output, [], 0, 0⟩,
   vdroputDefault, iqDefault⟩

/-- A nominal 5 V, 50 µA quiescent-current `LinearSource` state (the spec's
own end-to-end scenario). -/
def nominalLDO : LinearSourceState :=
  ⟨⟨⟨5, "LDO", Option.none, PyVal.none, "nom"⟩,
    ⟨"vin", "V", 5, Option.none, Option.none, Option.none, Option.none⟩,
    voutP18, imax1, default_input, default_output, [], 0, 0⟩,
   vdroputDefault, ⟨"iq", "uA", 1/20000, Option.none, Option.none, Option.none, Option.none⟩⟩

/-- C9: the claim says `calc_efficiency` fails exactly when
`current + iq == 0` and that for every current with `current + iq ≠ 0` the
division is well-defined.  The method never reaches the division: line 334
`self.vin.get_value(self.mode)` is a method call on a `StatParam`, and
`get_value` is never bound on the class (its `def` sits inside `__init__`,
the slip recorded by the C1 theorem), so the call raises `AttributeError`
for every current — and no `LinearSource` instance can be constructed in the
first place (the slip recorded by the C2 theorem).  Evaluated at the spec's
own end-to-end scenario (5 V, 50 µA, 0.15 A load, so `current + iq ≠ 0`)
the call returns `AttributeError` instead of a number, and at a 0 V input
with `current = 1` it likewise returns `AttributeError`, not the guarded
division failure. -/
theorem calc_efficiency_attribute_error :
    LinearSourceState.calc_efficiency nominalLDO (Option.some (3/20))
      = Except.error PyError.attributeError
    ∧ LinearSourceState.calc_efficiency zeroVinLDO (Option.some 1)
        = Except.error PyError.attributeError := by
  exact ⟨rfl, rfl⟩

/-- Inversion of a successful `Except.bind`. -/
theorem bind_ok_inv {α β : Type} {x : Except PyError α} {f : α → Except PyError β} {b : β}
    (h : Except.bind x f = Except.ok b) : ∃ a, x = Except.ok a ∧ f a = Except.ok b := by
  cases x with
  | error e => simp [Except.bind] at h
  | ok a => exact ⟨a, rfl, by simpa [Except.bind] using h⟩

/-- C10: every successfully constructed `BaseSource` starts with an empty
`loads` list, `total_current = 0.0` and `power_dissipation = 0.0` (models.py
lines 192-194): the derived quantities never carry a nonzero value before an
evaluation pass computes them. -/
theorem baseSource_init_derived_fields_zero
    (id name vin vout max_current input_resistance output_resistance
      tags sub_system_id mode : PyVal) (s : BaseSourceState)
    (h : BaseSource.init id name vin vout max_current input_resistance output_resistance
        tags sub_system_id mode = Except.ok s) :
    s.loads = [] ∧ s.total_current = 0 ∧ s.power_dissipation = 0 := by
  unfold BaseSource.init at h
  obtain ⟨b0, hb0, h⟩ := bind_ok_inv h
  obtain ⟨b1, hb1, h⟩ := bind_ok_inv h
  obtain ⟨b2, hb2, h⟩ := bind_ok_inv h
  obtain ⟨b3, hb3, h⟩ := bind_ok_inv h
  obtain ⟨b4, hb4, h⟩ := bind_ok_inv h
  obtain ⟨b5, hb5, h⟩ := bind_ok_inv h
  injection h with h
  subst h
  exact ⟨rfl, rfl, rfl⟩

/-- The state produced by a successful sample `BaseSource` construction. -/
def sampleBaseSource : BaseSourceState :=
  ⟨⟨1, "S", Option.none, PyVal.none, "nom"⟩, vinP33, voutP18, imax1,
    default_input, default_output, [], 0, 0⟩

/-- C10 witness: the theorem applied to a concrete successful
construction. -/
theorem baseSource_init_derived_fields_zero_witness :
    sampleBaseSource.loads = [] ∧ sampleBaseSource.total_current = 0
    ∧ sampleBaseSource.power_dissipation = 0 := by
  exact baseSource_init_derived_fields_zero (PyVal.vint 1) (PyVal.vstr ("S"))
    (PyVal.vstatParam vinP33) (PyVal.vstatParam voutP18) (PyVal.vstatParam imax1)
    PyVal.none PyVal.none PyVal.none PyVal.none (PyVal.vstr ("nom"))
    sampleBaseSource (by rfl)

end Firefly
